import Mathlib

/-!
Shallow embedding of the muzo backend (src/backend/server.py): the key
normalizer, the Camelot codec, the harmonic-suggestion ranker, and the
record-store handlers that maintain per-playlist track counts.  Python
strings are Lean strings, Python ints are Lean Int, Python floats that are
only passed through (bpm, duration, confidence) are Lean Rat, and the
MongoDB collections are lists of records with the usual findOne /
updateOne-first-match / deleteOne-first-match semantics.  Fallible
handlers return Except; HTTPException and uncaught Python exceptions are
distinct error constructors.
-/

namespace Muzo

/-- Characters removed by the Python str.strip default whitespace set. -/
def isPySpace (c : Char) : Bool :=
  c = ' ' || c = '\t' || c = '\n' || c = '\r' || c = Char.ofNat 11 || c = Char.ofNat 12

/-- Python str.strip on a character list: drop whitespace from both ends. -/
def pyStripList (l : List Char) : List Char :=
  ((l.dropWhile isPySpace).reverse.dropWhile isPySpace).reverse

/-- Python str.strip. -/
def pyStrip (s : String) : String := ⟨pyStripList s.data⟩

/-- Value of a run of decimal digits; none when empty or a non-digit occurs. -/
def digitsVal (l : List Char) : Option Nat :=
  if l = [] then none
  else
    l.foldl
      (fun acc c =>
        match acc with
        | some n => if c.isDigit then some (n * 10 + (c.toNat - 48)) else none
        | none => none)
      (some 0)

/-- Python int(str): strip whitespace, optional sign, decimal digits; none models ValueError. -/
def pyInt (s : String) : Option Int :=
  match pyStripList s.data with
  | '-' :: rest => (digitsVal rest).map (fun n => -(n : Int))
  | '+' :: rest => (digitsVal rest).map (fun n => (n : Int))
  | l => (digitsVal l).map (fun n => (n : Int))

/-- CAMELOT_TO_KEY table from server.py, in source order. -/
def CAMELOT_TO_KEY : List (String × String) :=
  [("1A", "Ab minor"), ("1B", "B major"),
   ("2A", "Eb minor"), ("2B", "Gb major"),
   ("3A", "Bb minor"), ("3B", "Db major"),
   ("4A", "F minor"), ("4B", "Ab major"),
   ("5A", "C minor"), ("5B", "Eb major"),
   ("6A", "G minor"), ("6B", "Bb major"),
   ("7A", "D minor"), ("7B", "F major"),
   ("8A", "A minor"), ("8B", "C major"),
   ("9A", "E minor"), ("9B", "G major"),
   ("10A", "B minor"), ("10B", "D major"),
   ("11A", "Gb minor"), ("11B", "A major"),
   ("12A", "Db minor"), ("12B", "E major")]

/-- KEY_TO_CAMELOT is the inversion of CAMELOT_TO_KEY, as in server.py. -/
def KEY_TO_CAMELOT : List (String × String) :=
  CAMELOT_TO_KEY.map (fun p => (p.2, p.1))

/-- ALT_KEY_NAMES alias table from server.py, in source order. -/
def ALT_KEY_NAMES : List (String × List String) :=
  [("Ab minor", ["G# minor", "G#m", "Abm"]),
   ("Eb minor", ["D# minor", "D#m", "Ebm"]),
   ("Bb minor", ["A# minor", "A#m", "Bbm"]),
   ("F minor", ["Fm"]),
   ("C minor", ["Cm"]),
   ("G minor", ["Gm"]),
   ("D minor", ["Dm"]),
   ("A minor", ["Am"]),
   ("E minor", ["Em"]),
   ("B minor", ["Bm"]),
   ("Gb minor", ["F# minor", "F#m", "Gbm"]),
   ("Db minor", ["C# minor", "C#m", "Dbm"]),
   ("B major", ["Bmaj", "B"]),
   ("Gb major", ["F# major", "F#maj", "F#", "Gb"]),
   ("Db major", ["C# major", "C#maj", "C#", "Db"]),
   ("Ab major", ["G# major", "G#maj", "G#", "Ab"]),
   ("Eb major", ["D# major", "D#maj", "D#", "Eb"]),
   ("Bb major", ["A# major", "A#maj", "A#", "Bb"]),
   ("F major", ["Fmaj", "F"]),
   ("C major", ["Cmaj", "C"]),
   ("G major", ["Gmaj", "G"]),
   ("D major", ["Dmaj", "D"]),
   ("A major", ["Amaj", "A"]),
   ("E major", ["Emaj", "E"])]

/-- normalize_key from server.py: strip, then exact match against the
canonical key set, then the alias table in order, else pass through. -/
def normalize_key (key : String) : String :=
  let key := pyStrip key
  if (KEY_TO_CAMELOT.map Prod.fst).contains key then key
  else
    match ALT_KEY_NAMES.find? (fun p => p.2.contains key) with
    | some p => p.1
    | none => key

/-- get_camelot_from_key from server.py: normalize then dict lookup with default sentinel. -/
def get_camelot_from_key (key : String) : String :=
  let normalized := normalize_key key
  match KEY_TO_CAMELOT.find? (fun p => p.1 == normalized) with
  | some p => p.2
  | none => "?"

/-- get_harmonic_keys from server.py: length guard, integer-prefix parse
(ValueError gives the empty list), then the four wheel relations. -/
def get_harmonic_keys (camelot : String) : List String :=
  if camelot.length < 2 then []
  else
    match pyInt (camelot.dropRight 1) with
    | none => []
    | some num =>
      let letter := camelot.takeRight 1
      let next_num := num % 12 + 1
      let prev_num := (num - 2) % 12 + 1
      let other_letter := if letter = "A" then "B" else "A"
      [camelot, toString next_num ++ letter, toString prev_num ++ letter,
       toString num ++ other_letter]

/-- Track record (server.py class Track); date_added and the uuid default
are request-independent environment inputs and are threaded explicitly. -/
structure Track where
  id : String
  filename : String := ""
  title : String := ""
  artist : String := ""
  album : String := ""
  key : String := ""
  camelot_key : String := ""
  bpm : Rat := 0
  energy : Int := 0
  duration : Rat := 0
  playlist_id : Option String := none
  analysis_method : String := "manual"
  waveform_data : Option String := none
  audio_data : Option String := none
deriving DecidableEq

/-- TrackCreate request body (server.py class TrackCreate). -/
structure TrackCreate where
  filename : String := ""
  title : String := ""
  artist : String := ""
  album : String := ""
  key : String := ""
  bpm : Rat := 0
  energy : Int := 0
  duration : Rat := 0
  playlist_id : Option String := none
  analysis_method : String := "manual"
  waveform_data : Option String := none
  audio_data : Option String := none
deriving DecidableEq

/-- TrackUpdate request body (server.py class TrackUpdate): every field
optional, and fields that are None are dropped from the update dict. -/
structure TrackUpdate where
  title : Option String := none
  artist : Option String := none
  album : Option String := none
  key : Option String := none
  bpm : Option Rat := none
  energy : Option Int := none
  playlist_id : Option String := none
deriving DecidableEq

/-- Playlist record (server.py class Playlist); track_count is an Int
because the store applies unbounded atomic increments and decrements. -/
structure Playlist where
  id : String
  name : String := ""
  description : String := ""
  emoji : String := "🎵"
  track_count : Int := 0
deriving DecidableEq

/-- PlaylistCreate request body (server.py class PlaylistCreate). -/
structure PlaylistCreate where
  name : String := ""
  description : String := ""
  emoji : String := "🎵"
deriving DecidableEq

/-- The record store: the tracks and playlists collections, in insertion order. -/
structure Store where
  tracks : List Track := []
  playlists : List Playlist := []
deriving DecidableEq

/-- Errors a handler can surface: FastAPI HTTPException with status and
detail, or an uncaught Python exception escaping the handler. -/
inductive ApiError where
  | httpException (status : Nat) (detail : String)
  | uncaughtValueError
  | uncaughtTypeError
deriving DecidableEq

/-- db.tracks.find_one on the id field. -/
def findOneTrack (s : Store) (tid : String) : Option Track :=
  s.tracks.find? (fun t => t.id = tid)

/-- db.playlists.find_one on the id field. -/
def findOnePlaylist (s : Store) (pid : String) : Option Playlist :=
  s.playlists.find? (fun p => p.id = pid)

/-- db.playlists.update_one with an atomic increment of track_count:
adjusts the first record whose id matches, no record otherwise. -/
def incTrackCount : List Playlist → String → Int → List Playlist
  | [], _, _ => []
  | p :: rest, pid, delta =>
    if p.id = pid then { p with track_count := p.track_count + delta } :: rest
    else p :: incTrackCount rest pid delta

/-- db.tracks.update_one with a field set: rewrites the first record whose id matches. -/
def setFirstTrack : List Track → String → (Track → Track) → List Track
  | [], _, _ => []
  | t :: rest, tid, f => if t.id = tid then f t :: rest else t :: setFirstTrack rest tid f

/-- db.tracks.delete_one on the id field: removes the first matching record. -/
def removeFirstTrack : List Track → String → List Track
  | [], _ => []
  | t :: rest, tid => if t.id = tid then rest else t :: removeFirstTrack rest tid

/-- db.playlists.delete_one on the id field: removes the first matching record. -/
def removeFirstPlaylist : List Playlist → String → List Playlist
  | [], _ => []
  | p :: rest, pid => if p.id = pid then rest else p :: removeFirstPlaylist rest pid

/-- Python truthiness of an optional string id, as used by the guards
`if track.playlist_id:` in server.py: None and the empty string are falsy. -/
def truthyId : Option String → Bool
  | none => false
  | some s => s ≠ ""

/-- create_track handler (server.py): normalize and encode the key, clamp
energy into [1,10], insert the track, and if the assignment is truthy send
an atomic +1 to that playlist id (no existence check on the playlist). -/
def create_track (newId : String) (track_data : TrackCreate) (s : Store) : Track × Store :=
  let camelot := get_camelot_from_key track_data.key
  let normalized_key := normalize_key track_data.key
  let track : Track :=
    { id := newId
      filename := track_data.filename
      title := track_data.title
      artist := track_data.artist
      album := track_data.album
      key := normalized_key
      camelot_key := camelot
      bpm := track_data.bpm
      energy := max 1 (min 10 track_data.energy)
      duration := track_data.duration
      playlist_id := track_data.playlist_id
      analysis_method := track_data.analysis_method
      waveform_data := track_data.waveform_data
      audio_data := track_data.audio_data }
  let s1 : Store := { s with tracks := s.tracks ++ [track] }
  let s2 : Store :=
    if truthyId track.playlist_id then
      { s1 with playlists := incTrackCount s1.playlists (track.playlist_id.getD "") 1 }
    else s1
  (track, s2)

/-- get_track handler (server.py): find by id or 404. -/
def get_track (track_id : String) (s : Store) : Except ApiError Track :=
  match findOneTrack s track_id with
  | none => .error (.httpException 404 "Track not found")
  | some track => .ok track

/-- The $set applied by update_track: fields present in the filtered
update dict overwrite the stored record; key is normalized and the camelot
code recomputed, energy is clamped; None fields are dropped, so a None
playlist_id never reaches the stored record. -/
def applyTrackUpdate (u : TrackUpdate) (t : Track) : Track :=
  let t := match u.title with | some v => { t with title := v } | none => t
  let t := match u.artist with | some v => { t with artist := v } | none => t
  let t := match u.album with | some v => { t with album := v } | none => t
  let t := match u.key with
    | some v =>
      let nk := normalize_key v
      { t with key := nk, camelot_key := get_camelot_from_key nk }
    | none => t
  let t := match u.bpm with | some v => { t with bpm := v } | none => t
  let t := match u.energy with | some v => { t with energy := max 1 (min 10 v) } | none => t
  let t := match u.playlist_id with | some v => { t with playlist_id := some v } | none => t
  t

/-- Count adjustments applied by update_track when the old and the new
assignment differ (server.py lines 298-308): an atomic -1 to the truthy
old id, then an atomic +1 to the truthy new id. -/
def applyAssignmentDeltas (old_playlist_id new_playlist_id : Option String) (s : Store) : Store :=
  let sa : Store :=
    if truthyId old_playlist_id then
      { s with playlists := incTrackCount s.playlists (old_playlist_id.getD "") (-1) }
    else s
  if truthyId new_playlist_id then
    { sa with playlists := incTrackCount sa.playlists (new_playlist_id.getD "") 1 }
  else sa

/-- update_track handler (server.py): find or 404; old assignment is the
stored one, new assignment is the update dict entry (None when the request
omits it); apply the $set; then, when old and new differ, decrement the
truthy old id and increment the truthy new id; finally re-read the track. -/
def update_track (track_id : String) (update_data : TrackUpdate) (s : Store) :
    Except ApiError (Track × Store) :=
  match findOneTrack s track_id with
  | none => .error (.httpException 404 "Track not found")
  | some track =>
    let old_playlist_id := track.playlist_id
    let new_playlist_id := update_data.playlist_id
    let s1 : Store := { s with tracks := setFirstTrack s.tracks track_id (applyTrackUpdate update_data) }
    let s2 : Store :=
      if old_playlist_id ≠ new_playlist_id then
        applyAssignmentDeltas old_playlist_id new_playlist_id s1
      else s1
    match findOneTrack s2 track_id with
    | some updated => .ok (updated, s2)
    | none => .error .uncaughtTypeError

/-- delete_track handler (server.py): find or 404; decrement the truthy
assignment id (raw atomic -1, no floor); then delete the track record. -/
def delete_track (track_id : String) (s : Store) : Except ApiError (String × Store) :=
  match findOneTrack s track_id with
  | none => .error (.httpException 404 "Track not found")
  | some track =>
    let s1 : Store :=
      if truthyId track.playlist_id then
        { s with playlists := incTrackCount s.playlists (track.playlist_id.getD "") (-1) }
      else s
    let s2 : Store := { s1 with tracks := removeFirstTrack s1.tracks track_id }
    .ok ("Track deleted successfully", s2)

/-- create_playlist handler (server.py): insert a playlist with count 0. -/
def create_playlist (newId : String) (playlist_data : PlaylistCreate) (s : Store) :
    Playlist × Store :=
  let playlist : Playlist :=
    { id := newId
      name := playlist_data.name
      description := playlist_data.description
      emoji := playlist_data.emoji
      track_count := 0 }
  (playlist, { s with playlists := s.playlists ++ [playlist] })

/-- get_playlist handler (server.py): find by id or 404. -/
def get_playlist (playlist_id : String) (s : Store) : Except ApiError Playlist :=
  match findOnePlaylist s playlist_id with
  | none => .error (.httpException 404 "Playlist not found")
  | some playlist => .ok playlist

/-- db.playlists.update_one with a field set: rewrites the first matching record. -/
def setFirstPlaylist : List Playlist → String → (Playlist → Playlist) → List Playlist
  | [], _, _ => []
  | p :: rest, pid, f => if p.id = pid then f p :: rest else p :: setFirstPlaylist rest pid f

/-- update_playlist handler (server.py): find or 404; overwrite name,
description and emoji; re-read. -/
def update_playlist (playlist_id : String) (playlist_data : PlaylistCreate) (s : Store) :
    Except ApiError (Playlist × Store) :=
  match findOnePlaylist s playlist_id with
  | none => .error (.httpException 404 "Playlist not found")
  | some _ =>
    let setFields : Playlist → Playlist := fun p =>
      { p with name := playlist_data.name,
               description := playlist_data.description,
               emoji := playlist_data.emoji }
    let s1 : Store := { s with playlists := setFirstPlaylist s.playlists playlist_id setFields }
    match findOnePlaylist s1 playlist_id with
    | some updated => .ok (updated, s1)
    | none => .error .uncaughtTypeError

/-- delete_playlist handler (server.py): find or 404; clear the
assignment of every track pointing at the playlist; delete the record. -/
def delete_playlist (playlist_id : String) (s : Store) : Except ApiError (String × Store) :=
  match findOnePlaylist s playlist_id with
  | none => .error (.httpException 404 "Playlist not found")
  | some _ =>
    let clearAssignment : Track → Track := fun t =>
      if t.playlist_id = some playlist_id then { t with playlist_id := none } else t
    let s1 : Store := { s with tracks := s.tracks.map clearAssignment }
    let s2 : Store := { s1 with playlists := removeFirstPlaylist s1.playlists playlist_id }
    .ok ("Playlist deleted successfully", s2)

/-- Harmonic suggestion record (server.py class HarmonicSuggestion). -/
structure HarmonicSuggestion where
  track : Track
  compatibility : String
  reason : String
deriving DecidableEq

/-- Loop body of get_harmonic_suggestions: skip candidates with an empty
stored code or an unparseable prefix, else classify by the precedence
chain of the source. -/
def suggestionFor (camelot : String) (source_num : Int) (source_letter : String) (t : Track) :
    Option HarmonicSuggestion :=
  let t_camelot := t.camelot_key
  if t_camelot = "" then none
  else
    match pyInt (t_camelot.dropRight 1) with
    | none => none
    | some t_num =>
      let t_letter := t_camelot.takeRight 1
      if t_camelot = camelot then
        some { track := t, compatibility := "perfect",
               reason := "Same key - perfect harmonic match" }
      else if t_num = source_num % 12 + 1 ∧ t_letter = source_letter then
        some { track := t, compatibility := "energy_boost",
               reason := "Energy boost - raises the energy" }
      else if t_num = (source_num - 2) % 12 + 1 ∧ t_letter = source_letter then
        some { track := t, compatibility := "energy_drop",
               reason := "Energy drop - mellows the vibe" }
      else if t_num = source_num ∧ t_letter ≠ source_letter then
        some { track := t, compatibility := "good",
               reason := "Relative major/minor - mood shift" }
      else
        some { track := t, compatibility := "good",
               reason := "Harmonically compatible" }

/-- The priority dict of get_harmonic_suggestions, with default 4. -/
def suggestionPriority (c : String) : Nat :=
  if c = "perfect" then 0
  else if c = "energy_boost" then 1
  else if c = "energy_drop" then 2
  else if c = "good" then 3
  else 4

/-- Python list.sort with the priority key: a stable sort.  A stable sort
by a key taking values in the range 0..4 is uniquely determined — all
elements of key 0 in original order, then key 1, and so on — which is the
bucket concatenation below. -/
def sortByPriority (l : List HarmonicSuggestion) : List HarmonicSuggestion :=
  ([0, 1, 2, 3, 4].map (fun k => l.filter (fun x => suggestionPriority x.compatibility = k))).flatten

/-- get_harmonic_suggestions handler (server.py): find or 404;
short-circuit on an empty or sentinel source code; query candidates whose
code is among the harmonic keys (excluding the source id, first 100);
parse the source prefix (an unparseable one escapes as ValueError);
classify each candidate, stable-sort by priority, truncate to limit. -/
def get_harmonic_suggestions (track_id : String) (limit : Nat) (s : Store) :
    Except ApiError (List HarmonicSuggestion) :=
  match findOneTrack s track_id with
  | none => .error (.httpException 404 "Track not found")
  | some track =>
    let camelot := track.camelot_key
    if camelot = "" ∨ camelot = "?" then .ok []
    else
      let compatible_keys := get_harmonic_keys camelot
      let compatible_tracks :=
        (s.tracks.filter (fun t => t.id ≠ track_id ∧ compatible_keys.contains t.camelot_key)).take 100
      match pyInt (camelot.dropRight 1) with
      | none => .error .uncaughtValueError
      | some source_num =>
        let source_letter := camelot.takeRight 1
        let suggestions := compatible_tracks.filterMap (suggestionFor camelot source_num source_letter)
        let sorted := sortByPriority suggestions
        .ok (sorted.take limit)

/-- Parsed JSON object of a successful AI reply (server.py analyze_with_ai
success path): each field optional, reflecting result.get with defaults. -/
structure AiResult where
  key : Option String := none
  bpm : Option Rat := none
  energy : Option Int := none
  confidence : Option Rat := none
deriving DecidableEq

/-- AIAnalysisResponse body (server.py class AIAnalysisResponse). -/
structure AIAnalysisResponse where
  key : String
  camelot_key : String
  bpm : Rat
  energy : Int
  confidence : Rat
deriving DecidableEq

/-- analyze_with_ai handler (server.py), from the point where the external
LLM call and JSON parsing have resolved: an error outcome (LLM failure or
malformed JSON raising inside the try block) becomes the 500
"AI analysis failed" HTTPException; a parsed object is read with
result.get defaults (key "C major", bpm 120, energy 5, confidence 0.7),
the key is normalized and encoded, and the energy passes through with no
clamp. -/
def analyze_with_ai (llm_outcome : Except String AiResult) : Except ApiError AIAnalysisResponse :=
  match llm_outcome with
  | .error e => .error (.httpException 500 ("AI analysis failed: " ++ e))
  | .ok result =>
    let key := result.key.getD "C major"
    let camelot := get_camelot_from_key key
    .ok { key := normalize_key key
          camelot_key := camelot
          bpm := result.bpm.getD 120
          energy := result.energy.getD 5
          confidence := result.confidence.getD (7 / 10) }

/-! Concrete fixtures used by the executions below. -/

/-- TrackCreate body for track T: key "A minor" (code 8A), assigned to playlist P. -/
def reqTrackT : TrackCreate :=
  { filename := "strobe.mp3", title := "Strobe", artist := "deadmau5",
    key := "A minor", bpm := 128, energy := 8, playlist_id := some "P" }

/-- TrackCreate body for track V: key "E minor" (code 9A), unassigned. -/
def reqTrackV : TrackCreate :=
  { filename := "levels.mp3", title := "Levels", key := "E minor", bpm := 130, energy := 7 }

/-- TrackCreate body for track U: an unmapped key, so its code is the sentinel. -/
def reqTrackU : TrackCreate :=
  { filename := "unknown.mp3", title := "Unknown", key := "Q flat wrong", bpm := 100, energy := 5 }

/-- Store after creating playlists P and Q. -/
def storePQ0 : Store :=
  (create_playlist "Q" { name := "Peak Time" }
    ((create_playlist "P" { name := "Progressive" } {}).2)).2

/-- The track record stored for T. -/
def trackT : Track := (create_track "T" reqTrackT storePQ0).1

/-- Store with playlists P (count 1) and Q (count 0) and track T assigned to P. -/
def storePQ : Store := (create_track "T" reqTrackT storePQ0).2

/-- A title-only update request: the body carries no playlist assignment. -/
def titleOnlyUpdate : TrackUpdate := { title := some "Strobe (Extended Mix)" }

/-- Result of the title-only update of T. -/
def afterTitle1 : Except ApiError (Track × Store) := update_track "T" titleOnlyUpdate storePQ

/-- Store after the title-only update of T. -/
def storeAfterTitle1 : Store :=
  match afterTitle1 with
  | .ok r => r.2
  | .error _ => storePQ

/-- Track returned by the title-only update of T. -/
def trackAfterTitle1 : Track :=
  match afterTitle1 with
  | .ok r => r.1
  | .error _ => trackT

/-- Result of deleting T right after the title-only update. -/
def afterDeleteT : Except ApiError (String × Store) := delete_track "T" storeAfterTitle1

/-- Store after deleting T right after the title-only update. -/
def storeAfterDeleteT : Store :=
  match afterDeleteT with
  | .ok r => r.2
  | .error _ => storeAfterTitle1

/-- Result of reassigning T from P to Q. -/
def afterReassign : Except ApiError (Track × Store) :=
  update_track "T" { playlist_id := some "Q" } storePQ

/-- Store after reassigning T from P to Q. -/
def storeAfterReassign : Store :=
  match afterReassign with
  | .ok r => r.2
  | .error _ => storePQ

/-- The track record stored for V. -/
def trackV : Track := (create_track "V" reqTrackV storePQ).1

/-- Store extending storePQ with track V (code 9A). -/
def storeV : Store := (create_track "V" reqTrackV storePQ).2

/-- The track record stored for U (camelot code is the sentinel). -/
def trackU : Track := (create_track "U" reqTrackU storeV).1

/-- Store with tracks T (8A, in P), V (9A) and U (sentinel code). -/
def storeSug : Store := (create_track "U" reqTrackU storeV).2

/-- The suggestion the ranker produces for V against source T. -/
def sugV : HarmonicSuggestion :=
  { track := trackV, compatibility := "energy_boost",
    reason := "Energy boost - raises the energy" }

end Muzo

deriving instance DecidableEq for Except

namespace Muzo

/-! Sanity checks of the pure functions against behavior of the source. -/

example : normalize_key "G#m" = "Ab minor" := by decide
example : normalize_key "  A minor  " = "A minor" := by decide
example : get_camelot_from_key "F# minor" = "11A" := by decide
example : get_camelot_from_key "Q flat wrong" = "?" := by decide
example : get_harmonic_keys "8A" = ["8A", "9A", "7A", "8B"] := by decide
example : get_harmonic_keys "1A" = ["1A", "2A", "12A", "1B"] := by decide
example : trackT.camelot_key = "8A" := by decide
example : trackV.camelot_key = "9A" := by decide
example : trackU.camelot_key = "?" := by decide
example : storePQ.playlists.map Playlist.track_count = [1, 0] := by decide

/-! Helper lemmas about the update handler. -/

/-- The update $set never touches the id field. -/
theorem applyTrackUpdate_id (u : TrackUpdate) (t : Track) :
    (applyTrackUpdate u t).id = t.id := by
  unfold applyTrackUpdate
  cases u.title <;> cases u.artist <;> cases u.album <;> cases u.key <;>
    cases u.bpm <;> cases u.energy <;> cases u.playlist_id <;> rfl

/-- The update $set keeps the stored assignment unless the request carries
a non-None one: None fields were dropped from the update dict. -/
theorem applyTrackUpdate_playlist_id (u : TrackUpdate) (t : Track) :
    (applyTrackUpdate u t).playlist_id = u.playlist_id.or t.playlist_id := by
  unfold applyTrackUpdate
  cases u.title <;> cases u.artist <;> cases u.album <;> cases u.key <;>
    cases u.bpm <;> cases u.energy <;> cases u.playlist_id <;> rfl

/-- Rewriting the first record with a given id and then looking that id up
finds the rewritten record, provided the rewrite preserves ids. -/
theorem find?_setFirstTrack (ts : List Track) (tid : String) (f : Track → Track)
    (hid : ∀ x, (f x).id = x.id) (t : Track)
    (h : ts.find? (fun x => x.id = tid) = some t) :
    (setFirstTrack ts tid f).find? (fun x => x.id = tid) = some (f t) := by
  induction ts with
  | nil => simp at h
  | cons a rest ih =>
    by_cases ha : a.id = tid
    · rw [List.find?_cons_of_pos _ (by simpa using ha)] at h
      have hat : a = t := by injection h
      subst hat
      unfold setFirstTrack
      rw [if_pos ha]
      exact List.find?_cons_of_pos _ (by simpa using (hid a).trans ha)
    · rw [List.find?_cons_of_neg _ (by simpa using ha)] at h
      unfold setFirstTrack
      rw [if_neg ha]
      rw [List.find?_cons_of_neg _ (by simpa using ha)]
      exact ih h

/-- The count-delta step never touches the tracks collection. -/
theorem applyAssignmentDeltas_tracks (o n : Option String) (s : Store) :
    (applyAssignmentDeltas o n s).tracks = s.tracks := by
  unfold applyAssignmentDeltas
  split <;> split <;> rfl

/-- Looking a track up is insensitive to the conditional count-delta step. -/
theorem findOneTrack_deltas_if (c : Prop) [Decidable c] (o n : Option String)
    (s1 : Store) (tid : String) :
    findOneTrack (if c then applyAssignmentDeltas o n s1 else s1) tid = findOneTrack s1 tid := by
  split
  · unfold findOneTrack
    rw [applyAssignmentDeltas_tracks]
  · rfl

/-- The track returned by a successful update_track is the stored record
rewritten by the filtered update dict. -/
theorem update_track_result (track_id : String) (u : TrackUpdate) (s : Store)
    (t : Track) (r : Track × Store)
    (hfind : findOneTrack s track_id = some t)
    (h : update_track track_id u s = .ok r) :
    r.1 = applyTrackUpdate u t := by
  have hset : (setFirstTrack s.tracks track_id (applyTrackUpdate u)).find?
      (fun x => x.id = track_id) = some (applyTrackUpdate u t) :=
    find?_setFirstTrack s.tracks track_id _ (fun x => applyTrackUpdate_id u x) t hfind
  simp only [update_track, hfind] at h
  rw [findOneTrack_deltas_if] at h
  simp only [findOneTrack] at h
  rw [hset] at h
  simp only [] at h
  rw [← Except.ok.inj h]

/-- C1: the claim says every count decrement is floored at 0 so that
track_count is non-negative in every reachable store state.  The code has
no floor: starting from an empty store, creating playlists P and Q and
track T assigned to P (P count 1), a title-only update of T decrements P
to 0 while leaving T assigned (the update dict dropped the None
playlist_id, so old and new assignment compare unequal), and then deleting
T — a decrement operation the claim itself names — applies a raw -1 and
leaves P at track_count -1 in a reachable state. -/
theorem C1_track_count_goes_negative :
    storePQ.playlists.map Playlist.track_count = [1, 0] ∧
    afterTitle1.isOk = true ∧
    (findOneTrack storeAfterTitle1 "T").map Track.playlist_id = some (some "P") ∧
    storeAfterTitle1.playlists.map Playlist.track_count = [0, 0] ∧
    afterDeleteT.isOk = true ∧
    storeAfterDeleteT.playlists.map Playlist.track_count = [-1, 0] := by decide

/-- C2: the claim says an update whose request carries no new assignment
adjusts no playlist count.  Evaluating the code: with track T assigned to
P (P count 1, Q count 0), the title-only update request succeeds, leaves
T assigned to P, and still decrements the count of P from 1 to 0, because
the dropped None playlist_id makes the handler compare P against None. -/
theorem C2_title_only_update_changes_count :
    titleOnlyUpdate.playlist_id = none ∧
    storePQ.playlists.map Playlist.track_count = [1, 0] ∧
    afterTitle1.isOk = true ∧
    (findOneTrack storeAfterTitle1 "T").map Track.playlist_id = some (some "P") ∧
    storeAfterTitle1.playlists.map Playlist.track_count = [0, 0] := by decide

/-- C3 counterexample: the claim says the energy in the AI-analysis
response lies in [1,10], with 0 clamped to 1.  The code applies no clamp
on this path: a parsed AI reply with energy 0 produces a response with
energy 0. -/
theorem C3_ai_energy_not_clamped_cex :
    (analyze_with_ai (.ok { key := some "A minor", energy := some 0 })).map
        (fun a => (a.key, a.camelot_key, a.energy)) = .ok ("A minor", "8A", 0) ∧
    (analyze_with_ai (.ok { key := some "A minor", energy := some 11 })).map
        (fun a => (a.key, a.camelot_key, a.energy)) = .ok ("A minor", "8A", 11) ∧
    (analyze_with_ai (.ok { key := some "A minor", energy := some (-3) })).map
        (fun a => (a.key, a.camelot_key, a.energy)) = .ok ("A minor", "8A", -3) := by decide

/-- C3 amended: user-supplied track data is clamped into [1,10] when a
track is created, but the AI-analysis response is not clamped: whatever
integer the external function returns is passed through unchanged, while
the key alone is run through the normalizer and the codec. -/
theorem C3_ai_energy_passthrough :
    (∀ (newId : String) (td : TrackCreate) (s : Store),
        1 ≤ ((create_track newId td s).1).energy ∧ ((create_track newId td s).1).energy ≤ 10) ∧
    (∀ (r : AiResult) (e : Int), r.energy = some e →
        analyze_with_ai (.ok r) =
          .ok { key := normalize_key (r.key.getD "C major"),
                camelot_key := get_camelot_from_key (r.key.getD "C major"),
                bpm := r.bpm.getD 120, energy := e,
                confidence := r.confidence.getD (7 / 10) }) := by
  constructor
  · intro newId td s
    have h : ((create_track newId td s).1).energy = max 1 (min 10 td.energy) := rfl
    rw [h]
    omega
  · intro r e he
    simp only [analyze_with_ai, he, Option.getD_some]

/-- C3 witness: the amended statement applied at a concrete creation
request and at the concrete AI reply carrying energy 0. -/
theorem C3_ai_energy_passthrough_witness :
    (1 ≤ ((create_track "W" reqTrackT ({} : Store)).1).energy ∧
      ((create_track "W" reqTrackT ({} : Store)).1).energy ≤ 10) ∧
    analyze_with_ai (.ok { key := some "A minor", energy := some 0 }) =
      .ok { key := normalize_key ((some "A minor").getD "C major"),
            camelot_key := get_camelot_from_key ((some "A minor").getD "C major"),
            bpm := (none : Option Rat).getD 120, energy := 0,
            confidence := (none : Option Rat).getD (7 / 10) } :=
  ⟨C3_ai_energy_passthrough.1 "W" reqTrackT {},
   C3_ai_energy_passthrough.2 { key := some "A minor", energy := some 0 } 0 rfl⟩

/-- C4 counterexample: the claim says a response missing the key field is
reported as analysis-failed and never silently given a default key.  The
code evaluates a parsed reply with no key field to a successful response
whose key is the default "C major" (code 8B). -/
theorem C4_missing_key_defaults_cex :
    (analyze_with_ai (.ok {})).map (fun a => (a.key, a.camelot_key, a.energy)) =
      .ok ("C major", "8B", 5) ∧
    (analyze_with_ai (.ok {})).isOk = true := by decide

/-- C4 amended: a failure of the external AI call or a malformed reply
that does not parse is reported as the distinct 500 analysis-failed
condition; but a well-formed reply missing the key field is not — the
handler silently substitutes the default key "C major". -/
theorem C4_failure_reporting_amended :
    (∀ e : String, analyze_with_ai (.error e) =
        .error (.httpException 500 ("AI analysis failed: " ++ e))) ∧
    (∀ r : AiResult, r.key = none →
        analyze_with_ai (.ok r) =
          .ok { key := "C major", camelot_key := "8B", bpm := r.bpm.getD 120,
                energy := r.energy.getD 5, confidence := r.confidence.getD (7 / 10) }) := by
  constructor
  · intro e
    rfl
  · intro r hk
    simp only [analyze_with_ai, hk, Option.getD_none]
    have h1 : normalize_key "C major" = "C major" := by decide
    have h2 : get_camelot_from_key "C major" = "8B" := by decide
    rw [h1, h2]

/-- C4 witness: the amended statement applied at a concrete failure
message and at the concrete keyless reply. -/
theorem C4_failure_reporting_amended_witness :
    analyze_with_ai (.error "timeout") =
      .error (.httpException 500 ("AI analysis failed: " ++ "timeout")) ∧
    analyze_with_ai (.ok ({} : AiResult)) =
      .ok { key := "C major", camelot_key := "8B",
            bpm := ({} : AiResult).bpm.getD 120,
            energy := ({} : AiResult).energy.getD 5,
            confidence := ({} : AiResult).confidence.getD (7 / 10) } :=
  ⟨C4_failure_reporting_amended.1 "timeout",
   C4_failure_reporting_amended.2 {} rfl⟩

/-- C5 counterexample: the claim says creating a track assigned to a
playlist id that does not exist fails with NotFound and mutates nothing.
The code performs no such check: on the empty store, creating a track
assigned to the absent playlist "ghost" completes and stores the track
with that assignment (the count increment matches no record). -/
theorem C5_create_track_ghost_playlist_cex :
    findOnePlaylist ({} : Store) "ghost" = none ∧
    ((create_track "T1" { title := "Ghost", key := "A minor", playlist_id := some "ghost" }
        ({} : Store)).2).tracks.map Track.playlist_id = [some "ghost"] ∧
    ((create_track "T1" { title := "Ghost", key := "A minor", playlist_id := some "ghost" }
        ({} : Store)).2).playlists = [] := by decide

/-- C5 amended: the operations that look a referenced track or playlist id
up (get, update, delete, harmonic suggestions) fail with the 404 NotFound
error and perform no mutation when the id does not exist; create_track,
however, does not validate its playlist assignment: it always succeeds,
appending the track with the requested assignment unchanged. -/
theorem C5_notfound_amended :
    (∀ (s : Store) (tid : String), findOneTrack s tid = none →
      get_track tid s = .error (.httpException 404 "Track not found") ∧
      (∀ u, update_track tid u s = .error (.httpException 404 "Track not found")) ∧
      delete_track tid s = .error (.httpException 404 "Track not found") ∧
      (∀ limit, get_harmonic_suggestions tid limit s =
        .error (.httpException 404 "Track not found"))) ∧
    (∀ (s : Store) (pid : String), findOnePlaylist s pid = none →
      get_playlist pid s = .error (.httpException 404 "Playlist not found") ∧
      (∀ pd, update_playlist pid pd s = .error (.httpException 404 "Playlist not found")) ∧
      delete_playlist pid s = .error (.httpException 404 "Playlist not found")) ∧
    (∀ (newId : String) (td : TrackCreate) (s : Store),
      ((create_track newId td s).2).tracks = s.tracks ++ [(create_track newId td s).1] ∧
      ((create_track newId td s).1).playlist_id = td.playlist_id) := by
  refine ⟨?_, ?_, ?_⟩
  · intro s tid h
    refine ⟨?_, ?_, ?_, ?_⟩
    · simp only [get_track, h]
    · intro u
      simp only [update_track, h]
    · simp only [delete_track, h]
    · intro limit
      simp only [get_harmonic_suggestions, h]
  · intro s pid h
    refine ⟨?_, ?_, ?_⟩
    · simp only [get_playlist, h]
    · intro pd
      simp only [update_playlist, h]
    · simp only [delete_playlist, h]
  · intro newId td s
    constructor
    · simp only [create_track]
      split <;> rfl
    · rfl

/-- C5 witness: the amended statement applied at the empty store and a
concrete missing id. -/
theorem C5_notfound_amended_witness :
    get_track "missing" ({} : Store) = .error (.httpException 404 "Track not found") ∧
    get_playlist "missing" ({} : Store) = .error (.httpException 404 "Playlist not found") :=
  ⟨(C5_notfound_amended.1 {} "missing" rfl).1,
   (C5_notfound_amended.2.1 {} "missing" rfl).1⟩

/-- C6 counterexample: the claim says every track assigned to a playlist
has some update request after which its assignment is none.  For track T
assigned to P in the concrete store, no update request whatsoever yields a
track with assignment none: None-valued fields are dropped from the update
dict, so the $set can never write an empty assignment. -/
theorem C6_no_unassign_update_cex :
    (findOneTrack storePQ "T").map Track.playlist_id = some (some "P") ∧
    ¬ ∃ (u : TrackUpdate) (r : Track × Store),
        update_track "T" u storePQ = .ok r ∧ r.1.playlist_id = none := by
  constructor
  · decide
  · rintro ⟨u, r, hok, hnone⟩
    have hfind : findOneTrack storePQ "T" = some trackT := by decide
    have hres := update_track_result "T" u storePQ trackT r hfind hok
    have hpl : r.1.playlist_id = u.playlist_id.or trackT.playlist_id := by
      rw [hres, applyTrackUpdate_playlist_id]
    have hT : trackT.playlist_id = some "P" := by decide
    rw [hT, hnone] at hpl
    cases hu : u.playlist_id <;> rw [hu] at hpl <;> simp [Option.or] at hpl

/-- C6 amended: a track can be reassigned at any time via the track-update
operation, with the two count adjustments applied; but it can never be
unassigned that way — every successful update of a track that has an
assignment returns a track that still has one.  Assignments are cleared
only by deleting the playlist, which clears every track pointing at it. -/
theorem C6_assignment_amended :
    (∀ (track_id : String) (u : TrackUpdate) (s : Store) (t : Track) (r : Track × Store),
        findOneTrack s track_id = some t → t.playlist_id ≠ none →
        update_track track_id u s = .ok r → r.1.playlist_id ≠ none) ∧
    (afterReassign.isOk = true ∧
      storeAfterReassign.playlists.map Playlist.track_count = [0, 1] ∧
      (findOneTrack storeAfterReassign "T").map Track.playlist_id = some (some "Q")) ∧
    (∀ (pid : String) (s : Store) (r : String × Store),
        delete_playlist pid s = .ok r → ∀ t ∈ r.2.tracks, t.playlist_id ≠ some pid) := by
  refine ⟨?_, by decide, ?_⟩
  · intro track_id u s t r hfind hne hok
    have hres := update_track_result track_id u s t r hfind hok
    rw [hres, applyTrackUpdate_playlist_id]
    cases hu : u.playlist_id <;> cases ht : t.playlist_id <;> simp_all [Option.or]
  · intro pid s r h t ht
    unfold delete_playlist at h
    cases hfind : findOnePlaylist s pid <;> rw [hfind] at h
    · cases h
    · simp only [] at h
      rw [← Except.ok.inj h] at ht
      simp only [] at ht
      rcases List.mem_map.mp ht with ⟨t0, _, hmap⟩
      by_cases hc : t0.playlist_id = some pid
      · rw [← hmap]
        simp [hc]
      · rw [← hmap]
        simp [hc]

/-- C6 witness: the amended no-unassignment statement applied at the
concrete title-only update of the assigned track T. -/
theorem C6_assignment_amended_witness :
    trackAfterTitle1.playlist_id ≠ none :=
  C6_assignment_amended.1 "T" titleOnlyUpdate storePQ trackT
    (trackAfterTitle1, storeAfterTitle1) (by decide) (by decide) (by decide)

/-- C7: for every valid Camelot code, number 1..12 with letter A or B, the
neighbor computation returns exactly the set containing the code itself,
the energy-boost neighbor (number mod 12) + 1 with the same letter, the
energy-drop neighbor ((number - 2) mod 12) + 1 with the same letter, and
the same number with the opposite letter; in particular the neighbors of
8A are 8A, 9A, 7A, 8B, and the neighbors of 1A wrap to include 12A and 2A. -/
theorem C7_harmonic_neighbors :
    (∀ n ∈ Finset.Icc (1 : Int) 12, ∀ L ∈ (["A", "B"] : List String),
        (get_harmonic_keys (toString n ++ L)).toFinset =
          {toString n ++ L, toString (n % 12 + 1) ++ L,
           toString ((n - 2) % 12 + 1) ++ L,
           toString n ++ (if L = "A" then "B" else "A")}) ∧
    (get_harmonic_keys "8A").toFinset = ({"8A", "9A", "7A", "8B"} : Finset String) ∧
    "12A" ∈ get_harmonic_keys "1A" ∧ "2A" ∈ get_harmonic_keys "1A" := by decide

/-- C7 witness: the universal statement applied at code 8A. -/
theorem C7_harmonic_neighbors_witness :
    (get_harmonic_keys (toString (8 : Int) ++ "A")).toFinset =
      {toString (8 : Int) ++ "A", toString ((8 : Int) % 12 + 1) ++ "A",
       toString (((8 : Int) - 2) % 12 + 1) ++ "A",
       toString (8 : Int) ++ (if ("A" : String) = "A" then "B" else "A")} :=
  C7_harmonic_neighbors.1 8 (by decide) "A" (by decide)

/-! Helper lemmas about Python str.strip for the normalizer claims. -/

/-- dropWhile swallows a fully-satisfying block appended at the front. -/
theorem dropWhile_append_of_all {p : Char → Bool} {pre l : List Char}
    (h : ∀ c ∈ pre, p c = true) : (pre ++ l).dropWhile p = l.dropWhile p := by
  induction pre with
  | nil => rfl
  | cons a rest ih =>
    rw [List.cons_append, List.dropWhile_cons, if_pos (h a (List.mem_cons_self a rest))]
    exact ih (fun c hc => h c (List.mem_cons_of_mem a hc))

/-- dropWhile of a fully-satisfying list is empty. -/
theorem dropWhile_of_all {p : Char → Bool} {l : List Char} (h : ∀ c ∈ l, p c = true) :
    l.dropWhile p = [] := by
  have h2 := dropWhile_append_of_all (l := []) h
  simpa using h2

/-- Stripping is insensitive to whitespace padding on either side. -/
theorem pyStripList_pad (pre post l : List Char)
    (hpre : ∀ c ∈ pre, isPySpace c = true) (hpost : ∀ c ∈ post, isPySpace c = true) :
    pyStripList (pre ++ l ++ post) = pyStripList l := by
  unfold pyStripList
  rw [List.append_assoc, dropWhile_append_of_all hpre, List.dropWhile_append]
  by_cases hl : (l.dropWhile isPySpace).isEmpty
  · rw [if_pos hl, dropWhile_of_all hpost]
    have hnil : l.dropWhile isPySpace = [] := by
      cases hdl : l.dropWhile isPySpace
      · rfl
      · rw [hdl] at hl
        simp [List.isEmpty] at hl
    rw [hnil]
  · rw [if_neg hl, List.reverse_append,
        dropWhile_append_of_all (fun c hc => hpost c (List.mem_reverse.mp hc))]

/-- C9 counterexample: the claim says an input differing from a canonical
name only in the letter case at its edges resolves to that canonical name.
"a minor" differs from the canonical "A minor" only in the case of its
first letter, yet the normalizer passes it through unchanged: only
whitespace is stripped, case is never folded. -/
theorem C9_case_not_trimmed_cex :
    (KEY_TO_CAMELOT.map Prod.fst).contains "A minor" = true ∧
    normalize_key "a minor" = "a minor" ∧
    ¬ normalize_key "a minor" = "A minor" := by decide

/-- C9 amended: the normalizer trims whitespace at the edges before
comparison — padding any input with whitespace never changes the result —
but letter case is significant everywhere, including at the edges: a
canonical name lowercased at the edge is passed through unchanged. -/
theorem C9_whitespace_trim_amended :
    (∀ (pre post : List Char) (s : String),
        (∀ c ∈ pre, isPySpace c = true) → (∀ c ∈ post, isPySpace c = true) →
        normalize_key ⟨pre ++ s.data ++ post⟩ = normalize_key s) ∧
    normalize_key "a minor" = "a minor" ∧
    normalize_key " G#m " = "Ab minor" := by
  refine ⟨?_, by decide, by decide⟩
  intro pre post s hpre hpost
  have h : pyStrip ⟨pre ++ s.data ++ post⟩ = pyStrip s := by
    unfold pyStrip
    exact congrArg String.mk (pyStripList_pad pre post s.data hpre hpost)
  simp only [normalize_key]
  rw [h]

/-- C9 witness: the amended statement applied at the alias "G#m" padded
with one space on each side. -/
theorem C9_whitespace_trim_amended_witness :
    normalize_key ⟨[' '] ++ ("G#m").data ++ [' ']⟩ = normalize_key "G#m" :=
  C9_whitespace_trim_amended.1 [' '] [' '] "G#m" (by decide) (by decide)

/-- C10: the neighbor computation validates only that its input has at
least two characters and an integer prefix: for every such input it
returns the 4-element list built by the same arithmetic, even outside the
valid code space — the neighbors of 13A include 13A and 13B, and 13A and
13B are not wheel codes. -/
theorem C10_no_range_validation :
    (∀ (camelot : String), ¬ camelot.length < 2 →
        ∀ n : Int, pyInt (camelot.dropRight 1) = some n →
        get_harmonic_keys camelot =
          [camelot, toString (n % 12 + 1) ++ camelot.takeRight 1,
           toString ((n - 2) % 12 + 1) ++ camelot.takeRight 1,
           toString n ++ (if camelot.takeRight 1 = "A" then "B" else "A")] ∧
        (get_harmonic_keys camelot).length = 4) ∧
    get_harmonic_keys "13A" = ["13A", "2A", "12A", "13B"] ∧
    get_harmonic_keys "0A" = ["0A", "1A", "11A", "0B"] ∧
    get_harmonic_keys "5X" = ["5X", "6X", "4X", "5A"] ∧
    "13A" ∈ get_harmonic_keys "13A" ∧ "13B" ∈ get_harmonic_keys "13A" ∧
    CAMELOT_TO_KEY.find? (fun p => p.1 = "13A") = none ∧
    CAMELOT_TO_KEY.find? (fun p => p.1 = "13B") = none := by
  refine ⟨?_, by decide, by decide, by decide, by decide, by decide, by decide, by decide⟩
  intro camelot h n hp
  have hg : get_harmonic_keys camelot =
      [camelot, toString (n % 12 + 1) ++ camelot.takeRight 1,
       toString ((n - 2) % 12 + 1) ++ camelot.takeRight 1,
       toString n ++ (if camelot.takeRight 1 = "A" then "B" else "A")] := by
    unfold get_harmonic_keys
    rw [if_neg h, hp]
  exact ⟨hg, by rw [hg]; rfl⟩

/-- C10 witness: the universal statement applied at the off-wheel code 13A. -/
theorem C10_no_range_validation_witness :
    get_harmonic_keys "13A" =
      ["13A", toString ((13 : Int) % 12 + 1) ++ "13A".takeRight 1,
       toString (((13 : Int) - 2) % 12 + 1) ++ "13A".takeRight 1,
       toString (13 : Int) ++ (if "13A".takeRight 1 = "A" then "B" else "A")] ∧
    (get_harmonic_keys "13A").length = 4 :=
  C10_no_range_validation.1 "13A" (by decide) 13 (by decide)

/-- A classified candidate is the candidate itself, and its stored code is
neither empty nor the sentinel: empty codes are skipped outright, and the
sentinel has no parseable integer prefix. -/
theorem suggestionFor_some (camelot : String) (n : Int) (L : String) (t : Track)
    (sug : HarmonicSuggestion) (h : suggestionFor camelot n L t = some sug) :
    sug.track = t ∧ t.camelot_key ≠ "" ∧ t.camelot_key ≠ "?" := by
  unfold suggestionFor at h
  by_cases h0 : t.camelot_key = ""
  · rw [if_pos h0] at h
    cases h
  · rw [if_neg h0] at h
    cases hp : pyInt ((t.camelot_key).dropRight 1) with
    | none =>
      rw [hp] at h
      cases h
    | some m =>
      rw [hp] at h
      simp only [] at h
      refine ⟨?_, h0, ?_⟩
      · split at h <;> (try split at h) <;> (try split at h) <;> (try split at h)
        all_goals (injection h with h1; rw [← h1])
      · intro hq
        rw [hq] at hp
        have hnone : pyInt (("?" : String).dropRight 1) = none := by decide
        rw [hnone] at hp
        cases hp

/-- Elements of the bucket-concatenation sort come from the input list. -/
theorem mem_sortByPriority (l : List HarmonicSuggestion) (x : HarmonicSuggestion)
    (h : x ∈ sortByPriority l) : x ∈ l := by
  unfold sortByPriority at h
  rcases List.mem_flatten.mp h with ⟨bucket, hb, hx⟩
  rcases List.mem_map.mp hb with ⟨k, _, hk⟩
  rw [← hk] at hx
  exact (List.mem_filter.mp hx).1

/-- C8: tracks whose stored Camelot code is the sentinel or empty are
excluded from harmonic suggestions in both directions — requesting
suggestions for such a track returns the empty sequence without error, and
such a track never appears in any suggestion list another track gets. -/
theorem C8_sentinel_excluded :
    (∀ (s : Store) (tid : String) (limit : Nat) (t : Track),
        findOneTrack s tid = some t → (t.camelot_key = "?" ∨ t.camelot_key = "") →
        get_harmonic_suggestions tid limit s = .ok []) ∧
    (∀ (s : Store) (tid : String) (limit : Nat) (l : List HarmonicSuggestion),
        get_harmonic_suggestions tid limit s = .ok l →
        ∀ sug ∈ l, sug.track.camelot_key ≠ "?" ∧ sug.track.camelot_key ≠ "") := by
  constructor
  · intro s tid limit t hfind hsent
    simp only [get_harmonic_suggestions, hfind]
    rw [if_pos hsent.symm]
  · intro s tid limit l h sug hmem
    unfold get_harmonic_suggestions at h
    cases hfind : findOneTrack s tid <;> rw [hfind] at h <;> simp only [] at h
    · cases h
    · rename_i track
      by_cases hsent : track.camelot_key = "" ∨ track.camelot_key = "?"
      · rw [if_pos hsent] at h
        rw [← Except.ok.inj h] at hmem
        cases hmem
      · rw [if_neg hsent] at h
        cases hp : pyInt ((track.camelot_key).dropRight 1) <;> rw [hp] at h
        · cases h
        · simp only [] at h
          rw [← Except.ok.inj h] at hmem
          have hm2 := List.mem_of_mem_take hmem
          have hm3 := mem_sortByPriority _ _ hm2
          rcases List.mem_filterMap.mp hm3 with ⟨t0, _, hf⟩
          rcases suggestionFor_some _ _ _ _ _ hf with ⟨htr, h1, h2⟩
          rw [htr]
          exact ⟨h2, h1⟩

/-- C8 witness: in the concrete store holding T (8A, source), V (9A) and
U (sentinel code), requesting suggestions for U returns the empty list,
and the one suggestion returned for T has a non-sentinel, nonempty code. -/
theorem C8_sentinel_excluded_witness :
    get_harmonic_suggestions "U" 10 storeSug = .ok [] ∧
    (sugV.track.camelot_key ≠ "?" ∧ sugV.track.camelot_key ≠ "") :=
  ⟨C8_sentinel_excluded.1 storeSug "U" 10 trackU (by decide) (by decide),
   C8_sentinel_excluded.2 storeSug "T" 10 [sugV] (by decide) sugV (by decide)⟩

end Muzo
